import Mathlib

/-!
Shallow embedding of `src/aws_cli_tool.py`, an argparse-based AWS
provisioning CLI with three resource handlers (`handle_ec2_commands`,
`handle_s3_commands`, `handle_route53_commands`).  Remote boto3 calls are
reified as an `AwsCall` trace; environment responses (describe results,
bucket lists, assigned ids, stdin, the process hash seed) are a `World`.
-/

namespace AwsCliTool

/-- One remote AWS call made through a boto3 client.  Arguments mirror the
keyword arguments at each call site in the source. -/
inductive AwsCall where
  | describeInstances (filterName : String) (filterValues : List String)
  | runInstances (imageId : String) (instanceType : String)
      (minCount maxCount : Nat) (tags : List (String × String))
  | startInstances (instanceIds : List String)
  | stopInstances (instanceIds : List String)
  | createBucket (bucket : String) (locationConstraint : String)
  | putBucketAcl (bucket : String) (acl : String)
  | listBuckets
  | uploadFileobj (data : List Nat) (bucket : String) (key : String)
  | createHostedZone (name : String) (callerReference : String)
  deriving DecidableEq, Repr

/-- Whether a call mutates remote state.  `describe_instances` and
`list_buckets` are the only read-only calls the tool makes. -/
def AwsCall.isMutating : AwsCall → Bool
  | .describeInstances _ _ => false
  | .listBuckets => false
  | _ => true

/-- Whether a call is `run_instances`. -/
def AwsCall.isRunInstances : AwsCall → Bool
  | .runInstances _ _ _ _ _ => true
  | _ => false

/-- Whether a call is `upload_fileobj`. -/
def AwsCall.isUpload : AwsCall → Bool
  | .uploadFileobj _ _ _ => true
  | _ => false

/-- Modelled from the spec: Python's builtin `hash` on strings is missing
from `src/` (it is interpreter behaviour).  The spec describes it as "a
non-stable hash of the zone name ... not reproducible across runs": string
hashing is keyed by a per-process randomisation seed.  We model it as a
seed-keyed polynomial hash; the exact SipHash kernel is irrelevant to the
claims, which concern only how the result depends on the seed and the
string. -/
def pyHash (seed : Nat) (s : String) : Int :=
  Int.ofNat (s.data.foldl (fun a c => (a * 1000003 + c.toNat) % (2 ^ 61 - 1))
    (seed % (2 ^ 61 - 1)))

/-- Decimal digits of a natural number, most significant first; structural
on a fuel argument (`fuel ≥ n` suffices) so it evaluates by reduction. -/
def natDecAux : Nat → Nat → List Char
  | 0, _ => []
  | _ + 1, 0 => []
  | fuel + 1, n => natDecAux fuel (n / 10) ++ [Char.ofNat (48 + n % 10)]

/-- Python `str` on an integer: its decimal representation. -/
def pyStr (n : Int) : String :=
  if n < 0 then "-" ++ ⟨natDecAux n.natAbs n.natAbs⟩
  else if n = 0 then "0"
  else ⟨natDecAux n.natAbs n.natAbs⟩

/-- Python `str.lower`: lower-case each character (the tool only compares
it against the ASCII literal "yes"). -/
def pyLower (s : String) : String := ⟨s.data.map Char.toLower⟩

/-- Environment of one command execution: responses the AWS endpoints would
return, the local filesystem, the interactive stdin line, and the process
hash seed. -/
structure World where
  /-- `(InstanceId, State.Name)` pairs returned by `describe_instances`
  filtered on `tag:CreatedByCLI = true`. -/
  taggedInstances : List (String × String)
  /-- `InstanceId` assigned by `run_instances` to the new instance. -/
  newInstanceId : String
  /-- Bucket names returned by `list_buckets`. -/
  bucketNames : List String
  /-- Local filesystem: bytes of the file at each path. -/
  files : String → List Nat
  /-- `HostedZone.Id` assigned by `create_hosted_zone`. -/
  newZoneId : String
  /-- Per-process string-hash randomisation seed. -/
  hashSeed : Nat
  /-- The line read by `input(...)` at the public-bucket prompt. -/
  confirmInput : String

/-- Observable result of one command: the remote calls made in order, the
lines printed, and whether the command completed without an uncaught
exception. -/
structure Trace where
  calls : List AwsCall
  output : List String
  ok : Bool
  deriving DecidableEq, Repr

/-- A handler branch that falls through every `if`/`elif`: no call, no
output, normal return. -/
def Trace.empty : Trace := { calls := [], output := [], ok := true }

/-- The `--ami` argparse choices (`choices=['ubuntu', 'amazon-linux']`). -/
inductive Ami where
  | ubuntu
  | amazonLinux
  deriving DecidableEq, Repr

/-- The string argparse stores for each `--ami` choice. -/
def Ami.cliName : Ami → String
  | .ubuntu => "ubuntu"
  | .amazonLinux => "amazon-linux"

/-- The `--action` argparse choices of the `ec2 manage` subcommand. -/
inductive ManageAction where
  | start
  | stop
  deriving DecidableEq, Repr

/-- The string argparse stores for each `--action` choice. -/
def ManageAction.cliName : ManageAction → String
  | .start => "start"
  | .stop => "stop"

/-- An `ec2` command line accepted by the argparse configuration:
`create --instance-type ... --ami ...`, `manage --instance-id ...
--action ...`, or `list`.  `--instance-type` is restricted by argparse to
`t3.nano`/`t4g.nano` but the handler never inspects it, so it is kept as a
string. -/
inductive Ec2Cmd where
  | create (instanceType : String) (ami : Ami)
  | manage (instanceId : String) (action : ManageAction)
  | list
  deriving DecidableEq, Repr

/-- The argparse namespace reaching `handle_ec2_commands`.  Fields argparse
did not set on the chosen subcommand are never read by the handler on that
path; they are kept as `""` here. -/
structure Ec2Args where
  action : String
  instanceType : String
  ami : String
  instanceId : String
  deriving DecidableEq, Repr

/-- Argparse parsing of an `ec2` command line.  The subparsers were created
with `dest='action'`, so selecting a subcommand stores its name in
`args.action`; the `manage` subparser then defines a required `--action`
option writing to the same attribute, and option values are assigned after
the subcommand name, so after `ec2 manage --action start` the namespace has
`args.action == 'start'`, not `'manage'`. -/
def parseEc2 : Ec2Cmd → Ec2Args
  | .create it ami =>
      { action := "create", instanceType := it, ami := ami.cliName,
        instanceId := "" }
  | .manage iid a =>
      { action := a.cliName, instanceType := "", ami := "",
        instanceId := iid }
  | .list =>
      { action := "list", instanceType := "", ami := "", instanceId := "" }

/-- The `if args.ami == 'ubuntu': ... elif args.ami == 'amazon-linux': ...`
AMI resolution in the create branch.  `none` models the fall-through with
no `else`, which leaves `ami_id` unbound (a `NameError` at the
`run_instances` call site); argparse `choices` keeps that path
unreachable. -/
def resolveAmi (ami : String) : Option String :=
  if ami = "ubuntu" then some "ami-12345678"
  else if ami = "amazon-linux" then some "ami-87654321"
  else none

/-- `handle_ec2_commands` from the source, as a function from the argparse
namespace and the environment to the observable trace. -/
def handle_ec2_commands (args : Ec2Args) (w : World) : Trace :=
  if args.action = "create" then
    let describeCall := AwsCall.describeInstances "tag:CreatedByCLI" ["true"]
    let running_instances := w.taggedInstances.filter fun i => i.2 = "running"
    if 2 ≤ running_instances.length then
      { calls := [describeCall],
        output := ["Error: Cannot create more than 2 running instances."],
        ok := true }
    else
      match resolveAmi args.ami with
      | some ami_id =>
          { calls := [describeCall,
              AwsCall.runInstances ami_id args.instanceType 1 1
                [("CreatedByCLI", "true")]],
            output := ["Created instance " ++ w.newInstanceId],
            ok := true }
      | none =>
          { calls := [describeCall], output := [], ok := false }
  else if args.action = "manage" then
    let instance_id := args.instanceId
    if args.action = "start" then
      { calls := [AwsCall.startInstances [instance_id]],
        output := ["Started instance " ++ instance_id], ok := true }
    else if args.action = "stop" then
      { calls := [AwsCall.stopInstances [instance_id]],
        output := ["Stopped instance " ++ instance_id], ok := true }
    else
      Trace.empty
  else if args.action = "list" then
    { calls := [AwsCall.describeInstances "tag:CreatedByCLI" ["true"]],
      output := w.taggedInstances.map fun i =>
        "Instance ID: " ++ i.1 ++ ", State: " ++ i.2,
      ok := true }
  else
    Trace.empty

/-- An `s3` command line accepted by the argparse configuration. -/
inductive S3Cmd where
  | create (bucketName : String) (publicFlag : Bool)
  | upload (bucketName : String) (file : String)
  | list
  deriving DecidableEq, Repr

/-- The shared tail of the s3 create branch after the confirmation guard:
`create_bucket` at the fixed region, then `put_bucket_acl` when `--public`
was given, then the success print. -/
def s3CreateTail (bucketName : String) (publicFlag : Bool) : Trace :=
  { calls := [AwsCall.createBucket bucketName "us-west-2"] ++
      (if publicFlag then [AwsCall.putBucketAcl bucketName "public-read"]
       else []),
    output := ["Created bucket " ++ bucketName],
    ok := true }

/-- `handle_s3_commands` from the source.  The `s3` subparsers also use
`dest='action'` but define no colliding option, so `args.action` is the
subcommand name; the namespace is therefore taken directly from the
command line. -/
def handle_s3_commands (cmd : S3Cmd) (w : World) : Trace :=
  match cmd with
  | .create bucketName publicFlag =>
      if publicFlag then
        if pyLower w.confirmInput ≠ "yes" then
          { calls := [], output := ["Bucket creation cancelled."], ok := true }
        else
          s3CreateTail bucketName publicFlag
      else
        s3CreateTail bucketName publicFlag
  | .upload bucketName file =>
      if bucketName ∉ w.bucketNames then
        { calls := [AwsCall.listBuckets],
          output := ["Bucket " ++ bucketName ++
            " does not exist or was not created via this CLI."],
          ok := true }
      else
        { calls := [AwsCall.listBuckets,
            AwsCall.uploadFileobj (w.files file) bucketName file],
          output := ["Uploaded " ++ file ++ " to bucket " ++ bucketName],
          ok := true }
  | .list =>
      { calls := [AwsCall.listBuckets],
        output := w.bucketNames.map fun b => "Bucket Name: " ++ b,
        ok := true }

/-- A `route53` command line accepted by the argparse configuration. -/
inductive R53Cmd where
  | create (zoneName : String)
  | manage (zoneId : String) (record : String)
  deriving DecidableEq, Repr

/-- `handle_route53_commands` from the source.  The create branch calls
`create_hosted_zone(Name=zone_name, CallerReference=str(hash(zone_name)))`;
the manage branch is `pass`. -/
def handle_route53_commands (cmd : R53Cmd) (w : World) : Trace :=
  match cmd with
  | .create zoneName =>
      { calls := [AwsCall.createHostedZone zoneName
          (pyStr (pyHash w.hashSeed zoneName))],
        output := ["Created DNS zone " ++ zoneName ++ ", ID: " ++
          w.newZoneId],
        ok := true }
  | .manage _ _ => Trace.empty

/-- A full command line: resource type then subcommand, as dispatched by
`main`. -/
inductive Cmd where
  | ec2 (c : Ec2Cmd)
  | s3 (c : S3Cmd)
  | route53 (c : R53Cmd)
  deriving DecidableEq, Repr

/-- The dispatch in `main`: parse and hand the namespace to the matching
handler. -/
def runCmd : Cmd → World → Trace
  | .ec2 c, w => handle_ec2_commands (parseEc2 c) w
  | .s3 c, w => handle_s3_commands c w
  | .route53 c, w => handle_route53_commands c w

/-- The `CallerReference` strings of the `create_hosted_zone` calls in a
trace. -/
def zoneCallerRefs (t : Trace) : List String :=
  t.calls.filterMap fun c =>
    match c with
    | .createHostedZone _ ref => some ref
    | _ => none

/-- The `ImageId` arguments of the `run_instances` calls in a trace. -/
def runInstancesImageIds (t : Trace) : List String :=
  t.calls.filterMap fun c =>
    match c with
    | .runInstances img _ _ _ _ => some img
    | _ => none

/-- A concrete environment used by the witness theorems: two running tagged
instances, one existing bucket, a fixed hash seed, a declining stdin
line. -/
def sampleWorld : World :=
  { taggedInstances := [("i-aaa", "running"), ("i-bbb", "running")],
    newInstanceId := "i-new",
    bucketNames := ["mybucket"],
    files := fun _ => [104, 105],
    newZoneId := "/hostedzone/Z123",
    hashSeed := 0,
    confirmInput := "no" }

/-- Claim C1: with at least 2 running tagged instances in the freshly
fetched list, `ec2 create` reports the quota error and makes no remote
mutating call — `run_instances` in particular is never invoked. -/
theorem ec2_create_quota_guard (it : String) (ami : Ami) (w : World)
    (h : 2 ≤ (w.taggedInstances.filter fun i => i.2 = "running").length) :
    (runCmd (.ec2 (.create it ami)) w).calls =
      [AwsCall.describeInstances "tag:CreatedByCLI" ["true"]] ∧
    (runCmd (.ec2 (.create it ami)) w).output =
      ["Error: Cannot create more than 2 running instances."] ∧
    ∀ c ∈ (runCmd (.ec2 (.create it ami)) w).calls, c.isMutating = false := by
  simp [runCmd, handle_ec2_commands, parseEc2, h, AwsCall.isMutating]

/-- Witness for C1 at a concrete world with exactly 2 running tagged
instances. -/
theorem ec2_create_quota_guard_witness :
    2 ≤ (sampleWorld.taggedInstances.filter fun i => i.2 = "running").length ∧
    (runCmd (.ec2 (.create "t3.nano" .ubuntu)) sampleWorld).output =
      ["Error: Cannot create more than 2 running instances."] :=
  ⟨by decide,
   (ec2_create_quota_guard "t3.nano" .ubuntu sampleWorld (by decide)).2.1⟩

/-- Claim C2: on a public-bucket create, any confirmation input other than
a case-insensitive "yes" aborts the whole action — zero remote calls (not
even `create_bucket`) and the cancellation message. -/
theorem s3_public_create_cancel (b : String) (w : World)
    (h : pyLower w.confirmInput ≠ "yes") :
    (runCmd (.s3 (.create b true)) w).calls = [] ∧
    (runCmd (.s3 (.create b true)) w).output =
      ["Bucket creation cancelled."] := by
  simp [runCmd, handle_s3_commands, h]

/-- Witness for C2 with confirmation input "no". -/
theorem s3_public_create_cancel_witness :
    pyLower sampleWorld.confirmInput ≠ "yes" ∧
    (runCmd (.s3 (.create "mybucket" true)) sampleWorld).calls = [] :=
  ⟨by decide, (s3_public_create_cancel "mybucket" sampleWorld (by decide)).1⟩

/-- Claim C3: on a public-bucket create confirmed with a case-insensitive
"yes", exactly two remote calls are made, in order `create_bucket` then
`put_bucket_acl` on the same bucket name. -/
theorem s3_public_create_confirmed (b : String) (w : World)
    (h : pyLower w.confirmInput = "yes") :
    (runCmd (.s3 (.create b true)) w).calls =
      [AwsCall.createBucket b "us-west-2",
       AwsCall.putBucketAcl b "public-read"] ∧
    (runCmd (.s3 (.create b true)) w).output = ["Created bucket " ++ b] := by
  simp [runCmd, handle_s3_commands, s3CreateTail, h]

/-- Witness for C3 with confirmation input "YES". -/
theorem s3_public_create_confirmed_witness :
    pyLower ({ sampleWorld with confirmInput := "YES" } : World).confirmInput
      = "yes" ∧
    (runCmd (.s3 (.create "mybucket" true))
        { sampleWorld with confirmInput := "YES" }).calls =
      [AwsCall.createBucket "mybucket" "us-west-2",
       AwsCall.putBucketAcl "mybucket" "public-read"] :=
  ⟨by decide,
   (s3_public_create_confirmed "mybucket"
     { sampleWorld with confirmInput := "YES" } (by decide)).1⟩

/-- Claim C4 (code evidence): `ec2 manage` is dead code.  The subparsers
store the subcommand in `args.action`, but the required `--action` option
of the `manage` subparser overwrites that slot with "start"/"stop", so the
`elif args.action == 'manage'` dispatch never fires: no remote call is
made and nothing is printed, for either action and any instance id. -/
theorem ec2_manage_is_dead_code (iid : String) (a : ManageAction)
    (w : World) :
    runCmd (.ec2 (.manage iid a)) w = Trace.empty := by
  cases a <;>
    simp [runCmd, handle_ec2_commands, parseEc2, ManageAction.cliName,
      Trace.empty]

/-- Claim C5: uploading to a bucket absent from the freshly listed buckets
reports the not-found/not-owned message and makes no upload call. -/
theorem s3_upload_missing_bucket (b f : String) (w : World)
    (h : b ∉ w.bucketNames) :
    (runCmd (.s3 (.upload b f)) w).calls = [AwsCall.listBuckets] ∧
    (runCmd (.s3 (.upload b f)) w).output =
      ["Bucket " ++ b ++ " does not exist or was not created via this CLI."] ∧
    ∀ c ∈ (runCmd (.s3 (.upload b f)) w).calls, c.isUpload = false := by
  simp [runCmd, handle_s3_commands, h, AwsCall.isUpload]

/-- Witness for C5 at a bucket name not in the listed buckets. -/
theorem s3_upload_missing_bucket_witness :
    "ghost" ∉ sampleWorld.bucketNames ∧
    (runCmd (.s3 (.upload "ghost" "a.txt")) sampleWorld).calls =
      [AwsCall.listBuckets] :=
  ⟨by decide, (s3_upload_missing_bucket "ghost" "a.txt" sampleWorld
    (by decide)).1⟩

/-- Claim C6: uploading to a bucket present in the listed buckets makes
exactly one upload call, whose remote object key equals the local file path
string, and reports success with the bucket and file name. -/
theorem s3_upload_present_bucket (b f : String) (w : World)
    (h : b ∈ w.bucketNames) :
    (runCmd (.s3 (.upload b f)) w).calls =
      [AwsCall.listBuckets, AwsCall.uploadFileobj (w.files f) b f] ∧
    ((runCmd (.s3 (.upload b f)) w).calls.filter fun c => c.isUpload) =
      [AwsCall.uploadFileobj (w.files f) b f] ∧
    (runCmd (.s3 (.upload b f)) w).output =
      ["Uploaded " ++ f ++ " to bucket " ++ b] := by
  simp [runCmd, handle_s3_commands, h, AwsCall.isUpload, List.filter]

/-- Witness for C6 at the listed bucket. -/
theorem s3_upload_present_bucket_witness :
    "mybucket" ∈ sampleWorld.bucketNames ∧
    (runCmd (.s3 (.upload "mybucket" "a.txt")) sampleWorld).calls =
      [AwsCall.listBuckets,
       AwsCall.uploadFileobj (sampleWorld.files "a.txt") "mybucket" "a.txt"] :=
  ⟨by decide, (s3_upload_present_bucket "mybucket" "a.txt" sampleWorld
    (by decide)).1⟩

/-- Claim C7: with fewer than 2 running tagged instances, `ec2 create`
invokes `run_instances` with the resolved image id and the OwnershipTag
`CreatedByCLI = true`, and reports the new instance's assigned id. -/
theorem ec2_create_under_quota (it : String) (ami : Ami) (w : World)
    (h : (w.taggedInstances.filter fun i => i.2 = "running").length < 2) :
    ∃ amiId, resolveAmi ami.cliName = some amiId ∧
      (runCmd (.ec2 (.create it ami)) w).calls =
        [AwsCall.describeInstances "tag:CreatedByCLI" ["true"],
         AwsCall.runInstances amiId it 1 1 [("CreatedByCLI", "true")]] ∧
      (runCmd (.ec2 (.create it ami)) w).output =
        ["Created instance " ++ w.newInstanceId] := by
  cases ami <;>
    simp [runCmd, handle_ec2_commands, parseEc2, Ami.cliName, resolveAmi,
      Nat.not_le.mpr h]

/-- Witness for C7 at a world with a single running tagged instance. -/
theorem ec2_create_under_quota_witness :
    (({ sampleWorld with
        taggedInstances := [("i-aaa", "running"), ("i-bbb", "stopped")] }
          : World).taggedInstances.filter fun i => i.2 = "running").length
      < 2 ∧
    ∃ amiId, resolveAmi (Ami.cliName .ubuntu) = some amiId ∧
      (runCmd (.ec2 (.create "t3.nano" .ubuntu))
          { sampleWorld with
            taggedInstances :=
              [("i-aaa", "running"), ("i-bbb", "stopped")] }).calls =
        [AwsCall.describeInstances "tag:CreatedByCLI" ["true"],
         AwsCall.runInstances amiId "t3.nano" 1 1 [("CreatedByCLI", "true")]] ∧
      (runCmd (.ec2 (.create "t3.nano" .ubuntu))
          { sampleWorld with
            taggedInstances :=
              [("i-aaa", "running"), ("i-bbb", "stopped")] }).output =
        ["Created instance " ++
          ({ sampleWorld with
            taggedInstances := [("i-aaa", "running"), ("i-bbb", "stopped")] }
              : World).newInstanceId] :=
  ⟨by decide,
   ec2_create_under_quota "t3.nano" .ubuntu
     { sampleWorld with
       taggedInstances := [("i-aaa", "running"), ("i-bbb", "stopped")] }
     (by decide)⟩

/-- Claim C8: the image-family mapping is a fixed closed function —
"ubuntu" always yields `ami-12345678` and "amazon-linux" always yields
`ami-87654321`, and the `run_instances` call uses exactly that id
regardless of the environment or instance type. -/
theorem ami_mapping_fixed (it : String) (w : World)
    (h : (w.taggedInstances.filter fun i => i.2 = "running").length < 2) :
    runInstancesImageIds (runCmd (.ec2 (.create it .ubuntu)) w) =
      ["ami-12345678"] ∧
    runInstancesImageIds (runCmd (.ec2 (.create it .amazonLinux)) w) =
      ["ami-87654321"] ∧
    resolveAmi "ubuntu" = some "ami-12345678" ∧
    resolveAmi "amazon-linux" = some "ami-87654321" := by
  refine ⟨?_, ?_, by decide, by decide⟩ <;>
    simp [runCmd, handle_ec2_commands, parseEc2, Ami.cliName, resolveAmi,
      runInstancesImageIds, Nat.not_le.mpr h, List.filterMap]

/-- Witness for C8 at a world with no running tagged instance. -/
theorem ami_mapping_fixed_witness :
    (({ sampleWorld with taggedInstances := [] }
        : World).taggedInstances.filter fun i => i.2 = "running").length
      < 2 ∧
    runInstancesImageIds
        (runCmd (.ec2 (.create "t4g.nano" .ubuntu))
          { sampleWorld with taggedInstances := [] }) =
      ["ami-12345678"] :=
  ⟨by decide,
   (ami_mapping_fixed "t4g.nano" { sampleWorld with taggedInstances := [] }
     (by decide)).1⟩

/-- Counterexample for claim C9: the caller reference is `str(hash(name))`
and Python string hashing is keyed by the per-process randomisation seed,
so two runs (hash seeds 0 and 1) creating the zone "example.com" supply
different caller references. -/
theorem zone_ref_not_stable_across_runs :
    zoneCallerRefs (runCmd (.route53 (.create "example.com"))
        { sampleWorld with hashSeed := 0 }) ≠
      zoneCallerRefs (runCmd (.route53 (.create "example.com"))
        { sampleWorld with hashSeed := 1 }) := by
  decide

/-- Claim C9 as amended: within one run (a fixed hash seed) the caller
reference is a deterministic function of the zone name — two invocations
with the same seed and zone name supply the same reference, the reference
is `str(hash(name))`, and the assigned zone id is reported. -/
theorem zone_ref_deterministic_per_run (name : String) (w₁ w₂ : World)
    (h : w₁.hashSeed = w₂.hashSeed) :
    zoneCallerRefs (runCmd (.route53 (.create name)) w₁) =
      zoneCallerRefs (runCmd (.route53 (.create name)) w₂) ∧
    (runCmd (.route53 (.create name)) w₁).calls =
      [AwsCall.createHostedZone name
        (pyStr (pyHash w₁.hashSeed name))] ∧
    (runCmd (.route53 (.create name)) w₁).output =
      ["Created DNS zone " ++ name ++ ", ID: " ++ w₁.newZoneId] := by
  simp [runCmd, handle_route53_commands, zoneCallerRefs, h, List.filterMap]

/-- Witness for the amended C9 at two worlds sharing hash seed 0. -/
theorem zone_ref_deterministic_per_run_witness :
    sampleWorld.hashSeed =
      ({ sampleWorld with newZoneId := "/hostedzone/Zother" }
        : World).hashSeed ∧
    zoneCallerRefs (runCmd (.route53 (.create "example.com")) sampleWorld) =
      zoneCallerRefs (runCmd (.route53 (.create "example.com"))
        { sampleWorld with newZoneId := "/hostedzone/Zother" }) :=
  ⟨by decide,
   (zone_ref_deterministic_per_run "example.com" sampleWorld
     { sampleWorld with newZoneId := "/hostedzone/Zother" } (by decide)).1⟩

/-- Claim C10: `route53 manage` is a pure no-op — no remote call, no
output, and the command completes without error. -/
theorem route53_manage_noop (zid r : String) (w : World) :
    (runCmd (.route53 (.manage zid r)) w).calls = [] ∧
    (runCmd (.route53 (.manage zid r)) w).output = [] ∧
    (runCmd (.route53 (.manage zid r)) w).ok = true := by
  simp [runCmd, handle_route53_commands, Trace.empty]

end AwsCliTool
